import Mathlib

/-!
Shallow embedding of the wake/sleep orchestration and data-synchronization
controller of the coastal-weather-dash firmware (two device variants:
`CoastalWeather_V1.ino`, namespace `Coastal`, and the tracked-activity
variant, namespace `Strava`).  Hardware reads (PMU VBUS sense, serial
liveness, wall clock, HTTP responses) are passed in as explicit inputs;
retained (RTC) state is passed and returned explicitly.  Machine integers
stay well inside their ranges in every function modelled here, so `Nat`
and `Int` are used directly.
-/

namespace Coastal

/-- Wake-up cause as classified by `esp_sleep_get_wakeup_cause()`:
`ext0` = USB/PMU-IRQ wake, `ext1` = BOOT button, `timer` = scheduled timer,
`undefined` = plain power-on or reset, `other` = any further enum value. -/
inductive WakeupCause where
  | ext0
  | ext1
  | timer
  | undefined
  | other
  deriving DecidableEq, Repr

/-- Function `checkCrashLoop()` from the firmware: on an `UNDEFINED` wake reason the
retained `rapidBootCount` is incremented and the function returns `true`
iff the incremented count has reached 5; on any other wake reason the
count is reset to 0 and the function returns `false`.  The pair is
(new `rapidBootCount`, returned flag); `setup()` enters Safe Mode when the
flag is `true`. -/
def checkCrashLoop (wakeupReason : WakeupCause) (rapidBootCount : Nat) : Nat × Bool :=
  match wakeupReason with
  | .undefined =>
    let c := rapidBootCount + 1
    (c, decide (5 ≤ c))
  | _ => (0, false)

/-- The flags `checkCrashLoop` returns over a sequence of boots, threading
the retained `rapidBootCount` between boots. -/
def crashLoopRun (reasons : List WakeupCause) (rapidBootCount : Nat) : List Bool :=
  match reasons with
  | [] => []
  | r :: rs =>
    let s := checkCrashLoop r rapidBootCount
    s.2 :: crashLoopRun rs s.1

/-- One 1-second presence sample read in `loop()`: the PMU VBUS report and
whether the USB serial transport is alive. -/
structure PresenceSample where
  pmuSaysConnected : Bool
  serialWorks : Bool
  deriving DecidableEq, Repr

/-- Computation `bool usbActuallyConnected = pmuSaysConnected || serialWorks;`. -/
def usbActuallyConnected (s : PresenceSample) : Bool :=
  s.pmuSaysConnected || s.serialWorks

/-- One iteration of the disconnect-debounce block in `loop()`: on a
present sample the retained `usbDisconnectCount` is reset to 0 and no
sleep is triggered; on an absent sample the count is incremented and sleep
is triggered iff the count has reached 10.  The pair is
(new `usbDisconnectCount`, sleep triggered). -/
def usbCheckStep (count : Nat) (s : PresenceSample) : Nat × Bool :=
  if usbActuallyConnected s then (0, false)
  else (count + 1, decide (10 ≤ count + 1))

/-- The `usbDisconnectCount` value after the debounce block has processed a
list of 1-second samples, starting from a given count. -/
def countFrom (count : Nat) (samples : List PresenceSample) : Nat :=
  samples.foldl (fun c s => (usbCheckStep c s).1) count

/-- Value of `usbDisconnectCount` after processing `samples` from the boot-time
value 0. -/
def countAfter (samples : List PresenceSample) : Nat :=
  countFrom 0 samples

/-- The sleep-trigger flags produced by the debounce block over a list of
samples, threading `usbDisconnectCount`. -/
def usbCheckTriggers (count : Nat) (samples : List PresenceSample) : List Bool :=
  match samples with
  | [] => []
  | s :: rest =>
    let r := usbCheckStep count s
    r.2 :: usbCheckTriggers r.1 rest

/-- Length of the trailing run of absent samples (the suffix of samples on
which `usbActuallyConnected` is false).  Specification-side notion used to
characterise the debounce counter. -/
def trailingAbsentRun (samples : List PresenceSample) : Nat :=
  (samples.reverse.takeWhile (fun s => ! usbActuallyConnected s)).length

/-- A sample in which both presence signals read false. -/
def absentSample : PresenceSample := ⟨false, false⟩

/-- A sample in which the PMU VBUS sense reads true. -/
def presentSample : PresenceSample := ⟨true, false⟩

/-- Array `int scheduleMinutes[]` of the firmware — the
wake table 6:00, 9:00, 12:00, 15:00, 18:00, 21:00 in minutes past
midnight. -/
def scheduleMinutes : List Nat := [360, 540, 720, 900, 1080, 1260]

/-- The scan loop in `calculateNextWakeMinutes`: the first table entry
strictly greater than the current minutes-past-midnight, if any. -/
def firstSlotAfter (cur : Nat) : List Nat → Option Nat
  | [] => none
  | s :: rest => if cur < s then some s else firstSlotAfter cur rest

/-- Function `calculateNextWakeMinutes()`.  Input: the local time as
(hour, minute) when `getLocalTime` succeeds, `none` when it fails (the
firmware then returns the 180-minute default).  Returns the minutes to
sleep: `max 10 (slot - cur)` for the first schedule slot after the
current time, or `(24*60 - cur) + 360` when the current time is at or
past 21:00. -/
def calculateNextWakeMinutes (t : Option (Nat × Nat)) : Nat :=
  match t with
  | none => 180
  | some (h, m) =>
    let cur := h * 60 + m
    match firstSlotAfter cur scheduleMinutes with
    | some s => max 10 (s - cur)
    | none => (24 * 60 - cur) + 360

/-- Specification-side reading of the fixed-schedule policy, from the
spec's words: the number of minutes until the first entry of the sorted
table strictly after the current local time, wrapping to the first entry
(6:00) the following day when no entry remains. -/
def specNextWake (cur : Nat) : Nat :=
  match scheduleMinutes.filter (fun s => cur < s) with
  | [] => (1440 - cur) + 360
  | s :: _ => s - cur

/-- Outcome of a `go_to_deep_sleep()` call: either the guard refused and
control returned to the caller, or the device powered off with the given
timer-wake duration in microseconds (the BOOT-button EXT1 wake and the
USB/PMU-IRQ EXT0 wake are armed unconditionally on this path). -/
inductive SleepOutcome where
  | refused
  | poweredOff (timerWakeUs : Nat)
  deriving DecidableEq, BEq, Repr

/-- Constant `SLEEP_DURATION_UNCONFIGURED_US`: one week in microseconds. -/
def sleepDurationUnconfiguredUs : Nat := 7 * 24 * 60 * 60 * 1000000

/-- Function `go_to_deep_sleep()`.  Inputs: the PMU VBUS reading taken at the top
of the function, the `isConfigured` flag, and the local time (for the
sleep-duration computation).  If VBUS reads connected the function
returns without powering off; otherwise it arms the wake sources and
powers off for the computed duration. -/
def go_to_deep_sleep (vbusIn : Bool) (isConfigured : Bool)
    (localTime : Option (Nat × Nat)) : SleepOutcome :=
  if vbusIn then .refused
  else
    let sleepMinutes := calculateNextWakeMinutes localTime
    let sleepDuration :=
      if !isConfigured then sleepDurationUnconfiguredUs
      else sleepMinutes * 60 * 1000000
    .poweredOff sleepDuration

/-- Outcomes of calling `go_to_deep_sleep` `n` times in a row while the
inputs stay fixed (the function mutates no state a repeated call could
observe). -/
def repeatedSleepCalls (vbusIn isConfigured : Bool)
    (localTime : Option (Nat × Nat)) (n : Nat) : List SleepOutcome :=
  List.replicate n (go_to_deep_sleep vbusIn isConfigured localTime)

/-- What the main logic at the end of `setup()` did on one boot. -/
structure SetupOutcome where
  /-- True when `drawSetupScreen()` was called (first-run screen). -/
  drewSetupScreen : Bool
  /-- True when `updateWeatherAndDisplay()` was called (fetch + render). -/
  fetchedAndRendered : Bool
  /-- True when `go_to_deep_sleep()` was called at the end of `setup()`. -/
  sleptAfter : Bool
  deriving DecidableEq, Repr

/-- The four terminal actions of the Wake Decision Engine, read off a
`SetupOutcome` (`RenderFromCache` does not occur in this variant). -/
inductive BootAction where
  | showFirstRunScreen
  | refreshAndRender
  | idle
  deriving DecidableEq, Repr

/-- Engine action performed by a boot outcome: a fetch+render beats a
first-run draw, and a boot that did neither idled. -/
def bootActionOf (o : SetupOutcome) : BootAction :=
  if o.fetchedAndRendered then .refreshAndRender
  else if o.drewSetupScreen then .showFirstRunScreen
  else .idle

/-- The decision logic at the end of `setup()` (after the factory-reset
and crash-loop guards).  Inputs: `isConfigured`, the wake cause, the
retained `bootCount`, the retained `setupScreenDrawn` flag, the VBUS
reading taken before the branch, and the VBUS reading re-taken after a
data update.  Unconfigured: draw the setup screen unless it is already up
(always on a plain power-on), then idle on USB or sleep on battery.
Configured: fetch and render on every wake cause except the USB wake,
then idle on USB or sleep on battery. -/
def setupMainLogic (isConfigured : Bool) (w : WakeupCause) (bootCount : Nat)
    (setupScreenDrawn usbConnected usbConnectedAfter : Bool) : SetupOutcome :=
  if !isConfigured then
    { drewSetupScreen := !setupScreenDrawn || w == .undefined,
      fetchedAndRendered := false,
      sleptAfter := !usbConnected }
  else
    let shouldUpdate :=
      if w == .ext0 then false
      else if w == .ext1 then true
      else if w == .timer then true
      else if w == .undefined || bootCount == 1 then true
      else true
    { drewSetupScreen := false,
      fetchedAndRendered := shouldUpdate,
      sleptAfter := !usbConnectedAfter }

/-- The retained timestamp state touched by `updateWeatherAndDisplay()`:
the working update-time string, the RTC-backed `cachedUpdateTime` copy,
and the RTC-backed `lastWeatherFetchEpoch`. -/
structure WeatherState where
  lastUpdateTime : String
  cachedUpdateTime : String
  lastWeatherFetchEpoch : Nat
  deriving DecidableEq, Repr

/-- The environment one `updateWeatherAndDisplay()` run observes: whether
`connectWiFi()` left the station connected, the local time (formatted
string and epoch) if available, and the three per-source fetch results. -/
structure SyncEnv where
  wifiConnected : Bool
  localTime : Option (String × Nat)
  weatherOk : Bool
  tideOk : Bool
  surfOk : Bool
  deriving DecidableEq, Repr

/-- Result of one `updateWeatherAndDisplay()` run: the new timestamp
state and whether `drawWeatherDashboard()` was reached. -/
structure UpdateResult where
  state : WeatherState
  rendered : Bool
  deriving DecidableEq, Repr

/-- Function `updateWeatherAndDisplay()`.  When WiFi connected, the three sources
are fetched and the timestamp trio is refreshed from the wall clock
(`strncpy` keeps at most 19 characters of the formatted time) whether or
not any fetch succeeded.  When WiFi failed, the working update time is
restored from the RTC copy if empty and the " (stale)" marker is
appended.  `drawWeatherDashboard()` runs on both paths. -/
def updateWeatherAndDisplay (env : SyncEnv) (st : WeatherState) : UpdateResult :=
  if env.wifiConnected then
    let st2 :=
      match env.localTime with
      | some (timeStr, epoch) =>
        { lastUpdateTime := timeStr,
          cachedUpdateTime := timeStr.take 19,
          lastWeatherFetchEpoch := epoch }
      | none => st
    { state := st2, rendered := true }
  else
    let lu :=
      if st.lastUpdateTime = "" && st.cachedUpdateTime ≠ "" then st.cachedUpdateTime
      else st.lastUpdateTime
    { state := { st with lastUpdateTime := lu ++ " (stale)" }, rendered := true }

/-- One character step of `handleSerialCommands()`: a newline or carriage
return terminates the line, handing a non-empty buffer to
`processSerialCommand` and clearing it; any other character is appended
only while the buffer holds fewer than 2048 characters and is silently
dropped otherwise.  The buffer models the Arduino `String
serialInputBuffer` as a character list.  The pair is (new buffer, command
emitted at this step, if any). -/
def serialStep (buf : List Char) (c : Char) : List Char × Option (List Char) :=
  if c = '\n' ∨ c = '\r' then
    if buf.length > 0 then ([], some buf) else (buf, none)
  else if buf.length < 2048 then (buf ++ [c], none)
  else (buf, none)

/-- Function `handleSerialCommands()` draining a list of received bytes: returns
the final buffer and the commands handed to `processSerialCommand`, in
order. -/
def handleSerialCommands (buf : List Char) (input : List Char) :
    List Char × List (List Char) :=
  match input with
  | [] => (buf, [])
  | c :: cs =>
    let s := serialStep buf c
    let r := handleSerialCommands s.1 cs
    (r.1, s.2.toList ++ r.2)

end Coastal

namespace Strava

/-- Function `checkCrashLoop()` of the tracked-activity variant — textually the
same function as in the weather variant. -/
def checkCrashLoop (wakeupReason : Coastal.WakeupCause) (rapidBootCount : Nat) :
    Nat × Bool :=
  match wakeupReason with
  | .undefined =>
    let c := rapidBootCount + 1
    (c, decide (5 ≤ c))
  | _ => (0, false)

/-- The retained credential state of the tracked-activity variant:
`RTC_DATA_ATTR char cachedAccessToken[256]`, `RTC_DATA_ATTR time_t
tokenExpiresAt`, and the working `String accessToken`. -/
structure TokenState where
  cachedAccessToken : String
  tokenExpiresAt : Int
  accessToken : String
  deriving DecidableEq, Repr

/-- The environment one `refreshAccessToken()` call observes: whether
`hasStravaCredentials()` holds (client id, client secret and refresh
secret all non-empty), the current wall-clock time, and the outcome of
the credential-exchange POST when one is issued — `some (token,
expiresIn)` on HTTP 200 (`expiresIn` already defaulted to 21600 when the
field is missing), `none` on any other status. -/
structure TokenEnv where
  hasCredentials : Bool
  now : Int
  exchangeResult : Option (String × Int)
  deriving DecidableEq, Repr

/-- How one `refreshAccessToken()` call resolved the credential. -/
inductive TokenStep where
  | noCredentials
  | reusedCache
  | exchanged (success : Bool)
  deriving DecidableEq, Repr

/-- Number of credential-exchange POSTs a `TokenStep` stands for. -/
def exchangeAttempts : TokenStep → Nat
  | .exchanged _ => 1
  | _ => 0

/-- Function `refreshAccessToken()`.  Without credentials it returns false at
once.  With a non-empty cached token, a positive expiry and
`now < tokenExpiresAt - 300` it reuses the cache.  Otherwise it issues
one exchange POST: on success the token is cached (`strncpy` keeps at
most 255 characters) with expiry `now + expiresIn`; on failure state is
unchanged and false is returned.  The triple is (new state, returned
flag, how the credential was resolved). -/
def refreshAccessToken (env : TokenEnv) (st : TokenState) :
    TokenState × Bool × TokenStep :=
  if !env.hasCredentials then (st, false, .noCredentials)
  else if st.cachedAccessToken ≠ "" ∧ st.tokenExpiresAt > 0 ∧
      env.now < st.tokenExpiresAt - 300 then
    ({ st with accessToken := st.cachedAccessToken }, true, .reusedCache)
  else
    match env.exchangeResult with
    | some (tok, expiresIn) =>
      ({ cachedAccessToken := tok.take 255,
         tokenExpiresAt := env.now + expiresIn,
         accessToken := tok }, true, .exchanged true)
    | none => (st, false, .exchanged false)

/-- Observable steps of `fetchStravaDataWithValidation()`, in the order
the firmware performs them. -/
inductive SyncEvent where
  | wifiConnect (ok : Bool)
  | timeSync
  | credentialExchange (ok : Bool)
  | dataFetch
  deriving DecidableEq, Repr

/-- The trace events credential resolution contributes. -/
def credEvents : TokenStep → List SyncEvent
  | .exchanged b => [.credentialExchange b]
  | _ => []

/-- Recognizer for credential-exchange events in a sync trace. -/
def isExchangeEvent : SyncEvent → Bool
  | .credentialExchange _ => true
  | _ => false

/-- Recognizer for data-fetch events in a sync trace. -/
def isFetchEvent : SyncEvent → Bool
  | .dataFetch => true
  | _ => false

/-- Function `fetchStravaDataWithValidation()` down to the phase structure that
matters for the credential policy: connect WiFi (abort on failure), sync
time, run `refreshAccessToken` (abort on failure), then fetch.  Returns
the event trace, whether the function returned true, and the new
credential state.  `fetchValid` abstracts the range validation of the
fetched totals in step 5. -/
def fetchStravaDataWithValidation (wifiOk : Bool) (env : TokenEnv)
    (st : TokenState) (fetchValid : Bool) :
    List SyncEvent × Bool × TokenState :=
  if !wifiOk then ([.wifiConnect false], false, st)
  else
    let r := refreshAccessToken env st
    if !r.2.1 then
      ([.wifiConnect true, .timeSync] ++ credEvents r.2.2, false, r.1)
    else
      ([.wifiConnect true, .timeSync] ++ credEvents r.2.2 ++ [.dataFetch],
       fetchValid, r.1)

/-- One activity record as consumed by `fetchStravaData()` after the
server-side field filter (type, name, start date, distance in metres,
moving time in seconds, summary polyline). -/
structure Activity where
  type : String
  name : String
  startDateLocal : String
  distanceMeters : Int
  movingTimeSecs : Int
  summaryPolyline : String
  deriving DecidableEq, Repr

/-- What one page request to the activities endpoint produced:
a non-200 HTTP status, an unparsable or non-array body, or a parsed
record array. -/
inductive PageResponse where
  | httpError
  | parseError
  | records (acts : List Activity)
  deriving DecidableEq, Repr

/-- Why the pagination loop in `fetchStravaData()` stopped. -/
inductive StopReason where
  | apiError
  | parseError
  | emptyPage
  | maxPages
  deriving DecidableEq, Repr

/-- Trace of one run of the pagination loop: the requests issued (page
number and the constant `per_page=30`), the final `totalActivities`
counter (every record of every fetched page, counted before the
sport-type filter), the delays inserted between successive requests in
milliseconds, and the stop reason. -/
structure FetchTrace where
  requests : List (Nat × Nat)
  totalActivities : Nat
  delaysMs : List Nat
  stop : StopReason
  deriving DecidableEq, Repr

/-- The pagination loop of `fetchStravaData()`, recursing on the number
of pages the `page > 10` guard still allows.  Each iteration requests the
current page with `per_page=30`; a non-200 status or parse failure or an
empty array breaks the loop; otherwise every record is counted into
`totalActivities`, and if another page is allowed a `delay(200)` is
inserted before requesting it. -/
def fetchGo (pages : Nat → PageResponse) (fuel page total : Nat) : FetchTrace :=
  match fuel with
  | 0 => { requests := [], totalActivities := total, delaysMs := [], stop := .maxPages }
  | f + 1 =>
    match pages page with
    | .httpError =>
      { requests := [(page, 30)], totalActivities := total, delaysMs := [],
        stop := .apiError }
    | .parseError =>
      { requests := [(page, 30)], totalActivities := total, delaysMs := [],
        stop := .parseError }
    | .records [] =>
      { requests := [(page, 30)], totalActivities := total, delaysMs := [],
        stop := .emptyPage }
    | .records (a :: rest) =>
      let newTotal := total + (a :: rest).length
      if f = 0 then
        { requests := [(page, 30)], totalActivities := newTotal, delaysMs := [],
          stop := .maxPages }
      else
        let t := fetchGo pages f (page + 1) newTotal
        { requests := (page, 30) :: t.requests,
          totalActivities := t.totalActivities,
          delaysMs := 200 :: t.delaysMs,
          stop := t.stop }

/-- Entry point of `fetchStravaData()`'s pagination phase: pages start at 1 and at most
10 are fetched. -/
def fetchStravaData (pages : Nat → PageResponse) : FetchTrace :=
  fetchGo pages 10 1 0

/-- A record that only has to exist for counting purposes. -/
def someActivity : Activity :=
  { type := "Run", name := "Morning Run", startDateLocal := "2025-01-02T14:30:00Z",
    distanceMeters := 5000, movingTimeSecs := 1800, summaryPolyline := "" }

/-- The pagination scenario of the claim: pages 1, 2, 3 hold 30, 30 and 5
records and page 4 is empty. -/
def scenarioPages : Nat → PageResponse
  | 1 => .records (List.replicate 30 someActivity)
  | 2 => .records (List.replicate 30 someActivity)
  | 3 => .records (List.replicate 5 someActivity)
  | _ => .records []

end Strava

/-- Claim C4: `checkCrashLoop` increments `rapidBootCount` exactly on an
unrecognized (UNDEFINED) wake reason and returns true iff the count has
then reached 5; any recognized-trigger boot resets the count to 0; both
variants implement the same function; five consecutive unrecognized
boots from a reset counter enter Safe Mode on the fifth. -/
theorem checkCrashLoop_threshold (r : Coastal.WakeupCause) (c : Nat) :
    ((Coastal.checkCrashLoop r c).1 =
      if r = .undefined then c + 1 else 0) ∧
    ((Coastal.checkCrashLoop r c).2 = true ↔ r = .undefined ∧ 5 ≤ c + 1) ∧
    Strava.checkCrashLoop r c = Coastal.checkCrashLoop r c ∧
    Coastal.crashLoopRun (List.replicate 5 .undefined) 0 =
      [false, false, false, false, true] := by
  refine ⟨?_, ?_, ?_, by decide⟩ <;>
    cases r <;> simp [Coastal.checkCrashLoop, Strava.checkCrashLoop]

/-- Claim C3: on a configured boot whose wake trigger is the USB
power-connect signal (EXT0), the decision logic neither fetches nor
renders: the engine action is Idle, whatever the boot count, the
first-run-screen flag and the presence readings. -/
theorem usb_wake_configured_idles (bootCount : Nat)
    (setupScreenDrawn usb1 usb2 : Bool) :
    Coastal.bootActionOf
      (Coastal.setupMainLogic true .ext0 bootCount setupScreenDrawn usb1 usb2) =
      .idle ∧
    (Coastal.setupMainLogic true .ext0 bootCount setupScreenDrawn
      usb1 usb2).fetchedAndRendered = false ∧
    (Coastal.setupMainLogic true .ext0 bootCount setupScreenDrawn
      usb1 usb2).drewSetupScreen = false := by
  refine ⟨?_, ?_, ?_⟩ <;> simp [Coastal.setupMainLogic, Coastal.bootActionOf]

/-- Claim C1 counterexample: with the PMU VBUS sense reading low but the
command channel alive, the Power Presence Monitor (the OR of the two
signals) reports presence, yet `go_to_deep_sleep` does not refuse — it
powers off.  The function consults only the VBUS sense. -/
theorem go_to_deep_sleep_serial_only_presence_sleeps :
    Coastal.usbActuallyConnected ⟨false, true⟩ = true ∧
    Coastal.go_to_deep_sleep false true (some (7, 30)) =
      .poweredOff 5400000000 := by
  exact ⟨rfl, rfl⟩

/-- Claim C1 (amended): every call to `go_to_deep_sleep` made while the
PMU VBUS sense reads connected is refused and returns control to the
caller without powering off, and calling it any number of times while
VBUS presence holds never powers off. -/
theorem go_to_deep_sleep_refuses_on_vbus (isConfigured : Bool)
    (localTime : Option (Nat × Nat)) (n : Nat) :
    Coastal.go_to_deep_sleep true isConfigured localTime = .refused ∧
    (Coastal.repeatedSleepCalls true isConfigured localTime n).all
      (fun o => o == Coastal.SleepOutcome.refused) = true := by
  refine ⟨rfl, ?_⟩
  simp only [Coastal.repeatedSleepCalls, List.all_eq_true, List.mem_replicate]
  exact fun o ho => by rw [ho.2]; rfl

/-- The minute argument enters `calculateNextWakeMinutes` only through
`h * 60 + m`. -/
theorem calculateNextWakeMinutes_total (h m : Nat) :
    Coastal.calculateNextWakeMinutes (some (h, m)) =
      Coastal.calculateNextWakeMinutes (some (0, h * 60 + m)) := by
  simp [Coastal.calculateNextWakeMinutes]

/-- The schedule scan of `calculateNextWakeMinutes`, unfolded into the
six interval cases of the wake table. -/
theorem calculateNextWakeMinutes_branches (cur : Nat) :
    Coastal.calculateNextWakeMinutes (some (0, cur)) =
      if cur < 360 then max 10 (360 - cur)
      else if cur < 540 then max 10 (540 - cur)
      else if cur < 720 then max 10 (720 - cur)
      else if cur < 900 then max 10 (900 - cur)
      else if cur < 1080 then max 10 (1080 - cur)
      else if cur < 1260 then max 10 (1260 - cur)
      else (24 * 60 - cur) + 360 := by
  simp only [Coastal.calculateNextWakeMinutes, Coastal.scheduleMinutes,
    Coastal.firstSlotAfter, Nat.zero_mul, Nat.zero_add]
  split_ifs <;> rfl

/-- The spec-side reading, unfolded into the same six interval cases. -/
theorem specNextWake_branches (cur : Nat) :
    Coastal.specNextWake cur =
      if cur < 360 then 360 - cur
      else if cur < 540 then 540 - cur
      else if cur < 720 then 720 - cur
      else if cur < 900 then 900 - cur
      else if cur < 1080 then 1080 - cur
      else if cur < 1260 then 1260 - cur
      else (1440 - cur) + 360 := by
  simp only [Coastal.specNextWake, Coastal.scheduleMinutes, List.filter_cons,
    List.filter_nil, decide_eq_true_eq]
  split_ifs <;> rfl

/-- The fixed-schedule computation agrees with the spec-side reading
(clamped at 10) on every minute of the day, and wraps after 21:00. -/
theorem calculateNextWakeMinutes_check (cur : Nat) (hcur : cur < 1440) :
    Coastal.calculateNextWakeMinutes (some (0, cur)) =
      max 10 (Coastal.specNextWake cur) ∧
    (1260 ≤ cur →
      Coastal.calculateNextWakeMinutes (some (0, cur)) = (1440 - cur) + 360) := by
  rw [calculateNextWakeMinutes_branches, specNextWake_branches]
  constructor
  · split_ifs <;> first
      | rfl
      | rw [Nat.max_eq_right (by omega)]
  · intro hge
    split_ifs <;> omega

/-- Claim C9: with local time available, the fixed-schedule sleep
computation returns the minutes until the first table entry strictly
after the current time (clamped below at 10), wrapping to 6:00 the next
day once the current time is at or past 21:00, and the result is never
below 10 minutes. -/
theorem fixed_schedule_sleep_spec (h m : Nat) (hh : h < 24) (hm : m < 60) :
    Coastal.calculateNextWakeMinutes (some (h, m)) =
      max 10 (Coastal.specNextWake (h * 60 + m)) ∧
    10 ≤ Coastal.calculateNextWakeMinutes (some (h, m)) ∧
    (1260 ≤ h * 60 + m →
      Coastal.calculateNextWakeMinutes (some (h, m)) =
        (1440 - (h * 60 + m)) + 360) := by
  have hcur : h * 60 + m < 1440 := by omega
  have hc := calculateNextWakeMinutes_check (h * 60 + m) hcur
  rw [calculateNextWakeMinutes_total]
  refine ⟨hc.1, ?_, hc.2⟩
  rw [hc.1]
  exact le_max_left _ _

/-- Claim C9 witness: at 19:45 the schedule sleeps 75 minutes (to 21:00);
at 22:30 it wraps 450 minutes to 6:00 the next morning. -/
theorem fixed_schedule_sleep_spec_witness :
    Coastal.calculateNextWakeMinutes (some (19, 45)) =
      max 10 (Coastal.specNextWake (19 * 60 + 45)) ∧
    10 ≤ Coastal.calculateNextWakeMinutes (some (22, 30)) ∧
    Coastal.calculateNextWakeMinutes (some (22, 30)) =
      (1440 - (22 * 60 + 30)) + 360 :=
  ⟨(fixed_schedule_sleep_spec 19 45 (by decide) (by decide)).1,
   (fixed_schedule_sleep_spec 22 30 (by decide) (by decide)).2.1,
   (fixed_schedule_sleep_spec 22 30 (by decide) (by decide)).2.2 (by decide)⟩

/-- One serial step keeps the buffer within 2048 characters. -/
theorem serialStep_length_le (buf : List Char) (c : Char)
    (h : buf.length ≤ 2048) : (Coastal.serialStep buf c).1.length ≤ 2048 := by
  unfold Coastal.serialStep
  split_ifs <;> simp_all <;> omega

/-- Draining any input keeps the buffer within 2048 characters. -/
theorem handleSerialCommands_length_le (input : List Char) (buf : List Char)
    (h : buf.length ≤ 2048) :
    (Coastal.handleSerialCommands buf input).1.length ≤ 2048 := by
  induction input generalizing buf with
  | nil => exact h
  | cons c cs ih => exact ih _ (serialStep_length_le buf c h)

/-- Every command `handleSerialCommands` hands to `processSerialCommand`
is within 2048 characters. -/
theorem handleSerialCommands_cmds_le (input : List Char) (buf : List Char)
    (h : buf.length ≤ 2048) :
    ∀ cmd ∈ (Coastal.handleSerialCommands buf input).2, cmd.length ≤ 2048 := by
  induction input generalizing buf with
  | nil => simp [Coastal.handleSerialCommands]
  | cons c cs ih =>
    intro cmd hmem
    simp only [Coastal.handleSerialCommands, List.mem_append] at hmem
    rcases hmem with hmem | hmem
    · revert hmem
      unfold Coastal.serialStep
      split_ifs <;> simp_all
    · exact ih _ (serialStep_length_le buf c h) cmd hmem

/-- Splitting lemma: draining `xs ++ ys` first drains `xs`, then drains
`ys` from the resulting buffer, concatenating the emitted commands. -/
theorem handleSerialCommands_append (xs ys : List Char) (buf : List Char) :
    Coastal.handleSerialCommands buf (xs ++ ys) =
      ((Coastal.handleSerialCommands
          (Coastal.handleSerialCommands buf xs).1 ys).1,
       (Coastal.handleSerialCommands buf xs).2 ++
         (Coastal.handleSerialCommands
           (Coastal.handleSerialCommands buf xs).1 ys).2) := by
  induction xs generalizing buf with
  | nil => simp [Coastal.handleSerialCommands]
  | cons c cs ih =>
    simp only [List.cons_append, Coastal.handleSerialCommands, List.append_eq]
    rw [ih]
    simp [List.append_assoc]

/-- Characters of a terminator-free line accumulate into the buffer up
to the 2048-character cap; everything beyond is discarded and no command
is emitted. -/
theorem handleSerialCommands_line (line : List Char) (buf : List Char)
    (hline : ∀ c ∈ line, ¬(c = '\n' ∨ c = '\r')) (h : buf.length ≤ 2048) :
    Coastal.handleSerialCommands buf line =
      (buf ++ line.take (2048 - buf.length), []) := by
  induction line generalizing buf with
  | nil => simp [Coastal.handleSerialCommands]
  | cons c cs ih =>
    have hc := hline c (by simp)
    simp only [Coastal.handleSerialCommands, Coastal.serialStep, if_neg hc]
    by_cases hlen : buf.length < 2048
    · rw [if_pos hlen]
      rw [ih (buf ++ [c]) (fun x hx => hline x (by simp [hx])) (by simp; omega)]
      have hsz : 2048 - buf.length = (2048 - (buf.length + 1)) + 1 := by omega
      simp [hsz, List.append_assoc]
    · rw [if_neg hlen]
      have hbe : buf.length = 2048 := by omega
      rw [ih buf (fun x hx => hline x (by simp [hx])) h]
      simp [hbe]

/-- Claim C10: from any buffer within the cap, the serial line buffer
never exceeds 2048 characters on any received byte sequence, every
command handed over is within 2048 characters, and a terminator-free
line followed by a newline is processed as its 2048-character truncated
prefix — or produces no command at all when the line is empty. -/
theorem serial_buffer_capped (input line : List Char) (buf : List Char)
    (hbuf : buf.length ≤ 2048)
    (hline : ∀ c ∈ line, ¬(c = '\n' ∨ c = '\r')) :
    (Coastal.handleSerialCommands buf input).1.length ≤ 2048 ∧
    (∀ cmd ∈ (Coastal.handleSerialCommands buf input).2, cmd.length ≤ 2048) ∧
    Coastal.handleSerialCommands [] (line ++ ['\n']) =
      ([], if line = [] then [] else [line.take 2048]) := by
  refine ⟨handleSerialCommands_length_le input buf hbuf,
          handleSerialCommands_cmds_le input buf hbuf, ?_⟩
  rw [handleSerialCommands_append]
  rw [handleSerialCommands_line line [] hline (by simp)]
  by_cases hl : line = []
  · subst hl
    simp [Coastal.handleSerialCommands, Coastal.serialStep]
  · have ht : line.take 2048 ≠ [] := by
      simp [List.take_eq_nil_iff, hl]
    have htl : 0 < (line.take 2048).length := List.length_pos.mpr ht
    have hll : 0 < line.length := List.length_pos.mpr hl
    simp [Coastal.handleSerialCommands, Coastal.serialStep, hl, htl, hll]

/-- Claim C10 witness: draining "PING\n" leaves an in-cap buffer, and
the two-character line "PI" terminated by a newline is processed as that
(un-truncated) command. -/
theorem serial_buffer_capped_witness :
    (Coastal.handleSerialCommands [] "PING\n".toList).1.length ≤ 2048 ∧
    Coastal.handleSerialCommands [] (['P', 'I'] ++ ['\n']) =
      ([], if (['P', 'I'] : List Char) = [] then []
           else [['P', 'I'].take 2048]) :=
  ⟨(serial_buffer_capped "PING\n".toList ['P', 'I'] [] (by decide) (by decide)).1,
   (serial_buffer_capped "PING\n".toList ['P', 'I'] [] (by decide) (by decide)).2.2⟩

/-- Appending one sample to the debounce run applies one check step. -/
theorem countFrom_append (c : Nat) (samples : List Coastal.PresenceSample)
    (s : Coastal.PresenceSample) :
    Coastal.countFrom c (samples ++ [s]) =
      (Coastal.usbCheckStep (Coastal.countFrom c samples) s).1 := by
  simp [Coastal.countFrom, List.foldl_append]

/-- The trailing absent run grows by one on an absent sample and resets
on a present one. -/
theorem trailingAbsentRun_append (samples : List Coastal.PresenceSample)
    (s : Coastal.PresenceSample) :
    Coastal.trailingAbsentRun (samples ++ [s]) =
      if Coastal.usbActuallyConnected s then 0
      else Coastal.trailingAbsentRun samples + 1 := by
  by_cases hp : Coastal.usbActuallyConnected s <;>
    simp [Coastal.trailingAbsentRun, List.reverse_append, List.takeWhile_cons, hp]

/-- The debounce counter started at 0 equals the length of the trailing
absent run of the samples processed so far. -/
theorem countAfter_eq_trailingAbsentRun (samples : List Coastal.PresenceSample) :
    Coastal.countAfter samples = Coastal.trailingAbsentRun samples := by
  induction samples using List.reverseRecOn with
  | nil => rfl
  | append_singleton xs s ih =>
    rw [Coastal.countAfter, countFrom_append, trailingAbsentRun_append]
    rw [Coastal.countAfter] at ih
    unfold Coastal.usbCheckStep
    by_cases hp : Coastal.usbActuallyConnected s <;> simp [hp, ih]

/-- The sleep-trigger flag at step `i` is exactly the comparison of the
debounce counter over the first `i + 1` samples against the threshold. -/
theorem usbCheckTriggers_getD (samples : List Coastal.PresenceSample)
    (c i : Nat) (hi : i < samples.length) :
    (Coastal.usbCheckTriggers c samples).getD i false =
      decide (10 ≤ Coastal.countFrom c (samples.take (i + 1))) := by
  induction samples generalizing c i with
  | nil => simp at hi
  | cons s rest ih =>
    cases i with
    | zero =>
      show (Coastal.usbCheckStep c s).2 =
        decide (10 ≤ Coastal.countFrom c [s])
      rw [show Coastal.countFrom c [s] = (Coastal.usbCheckStep c s).1 from rfl]
      unfold Coastal.usbCheckStep
      by_cases hp : Coastal.usbActuallyConnected s <;> simp [hp]
    | succ j =>
      have hj : j < rest.length := by simpa using hi
      show (Coastal.usbCheckTriggers (Coastal.usbCheckStep c s).1 rest).getD j false =
        decide (10 ≤ Coastal.countFrom c (s :: rest.take (j + 1)))
      rw [ih (Coastal.usbCheckStep c s).1 j hj]
      rfl

/-- The trailing absent run of a stream that ends in one present sample
followed by `j` absent samples is exactly `j`. -/
theorem trailingAbsentRun_bounce (q : List Coastal.PresenceSample) (j : Nat) :
    Coastal.trailingAbsentRun
      (q ++ Coastal.presentSample :: List.replicate j Coastal.absentSample) = j := by
  induction j with
  | zero =>
    rw [List.replicate_zero,
      show q ++ Coastal.presentSample :: ([] : List Coastal.PresenceSample) =
        q ++ [Coastal.presentSample] from rfl,
      trailingAbsentRun_append]
    rfl
  | succ n ih =>
    rw [List.replicate_succ',
      show q ++ Coastal.presentSample ::
          (List.replicate n Coastal.absentSample ++ [Coastal.absentSample]) =
        (q ++ Coastal.presentSample :: List.replicate n Coastal.absentSample) ++
          [Coastal.absentSample] by simp,
      trailingAbsentRun_append, ih]
    rfl

/-- Claim C2: in the idle loop, the disconnect debounce triggers sleep at
a step iff the presence check (PMU VBUS OR'd with serial liveness) has
read false on at least the last 10 consecutive 1-second samples; any
present sample resets the counter to 0; a present sample followed by
`j < 10` absent samples never triggers; a present sample followed by
exactly 10 absent samples triggers on the 10th. -/
theorem loop_disconnect_debounce (samples : List Coastal.PresenceSample)
    (i : Nat) (hi : i < samples.length) (q : List Coastal.PresenceSample)
    (j k : Nat) (hk : k < 10) (hj : j ≤ k) :
    ((Coastal.usbCheckTriggers 0 samples).getD i false = true ↔
      10 ≤ Coastal.trailingAbsentRun (samples.take (i + 1))) ∧
    (∀ s, Coastal.usbActuallyConnected s = true →
      Coastal.countAfter (samples ++ [s]) = 0) ∧
    (Coastal.usbCheckTriggers 0 (q ++ Coastal.presentSample ::
        List.replicate j Coastal.absentSample)).getD (q.length + j) false =
      false ∧
    (Coastal.usbCheckTriggers 0 (q ++ Coastal.presentSample ::
        List.replicate 10 Coastal.absentSample)).getD (q.length + 10) false =
      true := by
  have hlen : ∀ (r : List Coastal.PresenceSample) (n : Nat),
      (r ++ Coastal.presentSample :: List.replicate n Coastal.absentSample).length =
        r.length + n + 1 := by
    intro r n; simp; omega
  have hfull : ∀ (r : List Coastal.PresenceSample) (n : Nat),
      (Coastal.usbCheckTriggers 0 (r ++ Coastal.presentSample ::
          List.replicate n Coastal.absentSample)).getD (r.length + n) false =
        decide (10 ≤ n) := by
    intro r n
    rw [usbCheckTriggers_getD _ 0 _ (by rw [hlen]; omega)]
    rw [List.take_of_length_le (by rw [hlen])]
    rw [show Coastal.countFrom 0 (r ++ Coastal.presentSample ::
          List.replicate n Coastal.absentSample) =
        Coastal.countAfter (r ++ Coastal.presentSample ::
          List.replicate n Coastal.absentSample) from rfl]
    rw [countAfter_eq_trailingAbsentRun, trailingAbsentRun_bounce]
  refine ⟨?_, ?_, ?_, ?_⟩
  · rw [usbCheckTriggers_getD samples 0 i hi]
    rw [show Coastal.countFrom 0 (samples.take (i + 1)) =
        Coastal.countAfter (samples.take (i + 1)) from rfl]
    rw [countAfter_eq_trailingAbsentRun]
    simp
  · intro s hs
    rw [Coastal.countAfter, countFrom_append]
    simp [Coastal.usbCheckStep, hs]
  · rw [hfull q j]
    simp
    omega
  · rw [hfull q 10]
    rfl

/-- Claim C2 witness: over the stream
absent, present, absent ×9, then a 10-long absent run, the trigger at the
end of the 9-long run is off and the trigger at the end of the 10-long
run fires; a present sample resets the counter. -/
theorem loop_disconnect_debounce_witness :
    ((Coastal.usbCheckTriggers 0 (List.replicate 10 Coastal.absentSample)).getD 9
        false = true ↔
      10 ≤ Coastal.trailingAbsentRun
        ((List.replicate 10 Coastal.absentSample).take 10)) ∧
    Coastal.countAfter (List.replicate 10 Coastal.absentSample ++
      [Coastal.presentSample]) = 0 ∧
    (Coastal.usbCheckTriggers 0 ([Coastal.absentSample] ++
        Coastal.presentSample :: List.replicate 9 Coastal.absentSample)).getD
      (1 + 9) false = false ∧
    (Coastal.usbCheckTriggers 0 ([Coastal.absentSample] ++
        Coastal.presentSample :: List.replicate 10 Coastal.absentSample)).getD
      (1 + 10) false = true := by
  have h := loop_disconnect_debounce (List.replicate 10 Coastal.absentSample) 9
    (by decide) [Coastal.absentSample] 9 9 (by decide) (by decide)
  exact ⟨h.1, h.2.1 Coastal.presentSample (by decide),
    by simpa using h.2.2.1, by simpa using h.2.2.2⟩

/-- Claim C6 counterexample: a connected sync attempt in which all three
sources fail (`weatherOk = tideOk = surfOk = false`) still refreshes the
retained timestamp (`cachedUpdateTime` and `lastWeatherFetchEpoch`) from
the wall clock — the timestamp update is not conditioned on any source
succeeding, and no error value is reported. -/
theorem timestamp_updated_despite_all_sources_failing :
    (Coastal.updateWeatherAndDisplay
        ⟨true, some ("9:41 AM", 1700000000), false, false, false⟩
        ⟨"", "", 0⟩).state.lastWeatherFetchEpoch = 1700000000 ∧
    (Coastal.updateWeatherAndDisplay
        ⟨true, some ("9:41 AM", 1700000000), false, false, false⟩
        ⟨"", "", 0⟩).state.cachedUpdateTime = "9:41 AM" := by
  exact ⟨rfl, rfl⟩

/-- Claim C6 (amended): the last-sync timestamp is refreshed exactly when
network connectivity succeeded and local time is available, independent
of the three per-source results; only when connectivity fails are the
retained timestamp fields left untouched. -/
theorem timestamp_update_depends_only_on_connectivity (env : Coastal.SyncEnv)
    (st : Coastal.WeatherState) (w t s : Bool) :
    Coastal.updateWeatherAndDisplay
        { env with weatherOk := w, tideOk := t, surfOk := s } st =
      Coastal.updateWeatherAndDisplay env st ∧
    (env.wifiConnected = true →
      (Coastal.updateWeatherAndDisplay env st).state =
        (match env.localTime with
         | some (ts, ep) => ⟨ts, ts.take 19, ep⟩
         | none => st)) ∧
    (env.wifiConnected = false →
      (Coastal.updateWeatherAndDisplay env st).state.cachedUpdateTime =
          st.cachedUpdateTime ∧
      (Coastal.updateWeatherAndDisplay env st).state.lastWeatherFetchEpoch =
          st.lastWeatherFetchEpoch) := by
  refine ⟨rfl, ?_, ?_⟩
  · intro hw
    rcases ho : env.localTime with _ | ⟨ts, ep⟩ <;>
      simp [Coastal.updateWeatherAndDisplay, hw, ho]
  · intro hw
    simp [Coastal.updateWeatherAndDisplay, hw]

/-- Claim C6 witness: concrete instances of the amended characterization
on both the connected and the disconnected path. -/
theorem timestamp_update_depends_only_on_connectivity_witness :
    (Coastal.updateWeatherAndDisplay ⟨false, none, false, false, false⟩
        ⟨"a", "b", 3⟩).state.cachedUpdateTime = "b" ∧
    (Coastal.updateWeatherAndDisplay ⟨false, none, false, false, false⟩
        ⟨"a", "b", 3⟩).state.lastWeatherFetchEpoch = 3 :=
  (timestamp_update_depends_only_on_connectivity
    ⟨false, none, false, false, false⟩ ⟨"a", "b", 3⟩ true true true).2.2 rfl

/-- Claim C8 counterexample: a sync attempt whose three source fetches
all fail (with connectivity up) renders, but the displayed update time is
the freshly-formatted wall-clock time with no " (stale)" marker. -/
theorem failed_sources_render_without_stale_marker :
    (Coastal.updateWeatherAndDisplay
        ⟨true, some ("9:41 AM", 1700000000), false, false, false⟩
        ⟨"", "", 0⟩).rendered = true ∧
    (Coastal.updateWeatherAndDisplay
        ⟨true, some ("9:41 AM", 1700000000), false, false, false⟩
        ⟨"", "", 0⟩).state.lastUpdateTime = "9:41 AM" ∧
    "9:41 AM".endsWith " (stale)" = false := by
  exact ⟨rfl, rfl, by decide⟩

/-- Claim C8 (amended): every sync attempt — failed or not — reaches the
dashboard draw, and a connectivity failure appends the explicit
" (stale)" marker to the displayed update time (restored from the RTC
copy when the working copy is empty). -/
theorem sync_always_renders_stale_on_wifi_failure (env : Coastal.SyncEnv)
    (st : Coastal.WeatherState) :
    (Coastal.updateWeatherAndDisplay env st).rendered = true ∧
    (env.wifiConnected = false →
      (Coastal.updateWeatherAndDisplay env st).state.lastUpdateTime =
        (if st.lastUpdateTime = "" && st.cachedUpdateTime ≠ "" then
          st.cachedUpdateTime else st.lastUpdateTime) ++ " (stale)") := by
  constructor
  · rcases hw : env.wifiConnected with _ | _
    · simp [Coastal.updateWeatherAndDisplay, hw]
    · rcases env.localTime with _ | ⟨ts, ep⟩ <;>
        simp_all [Coastal.updateWeatherAndDisplay]
  · intro hw
    simp [Coastal.updateWeatherAndDisplay, hw]

/-- Claim C8 witness: on a concrete connectivity failure the screen is
still drawn and the displayed time is the cached one marked stale. -/
theorem sync_always_renders_stale_on_wifi_failure_witness :
    (Coastal.updateWeatherAndDisplay ⟨false, none, false, false, false⟩
        ⟨"", "8:00 AM", 5⟩).rendered = true ∧
    (Coastal.updateWeatherAndDisplay ⟨false, none, false, false, false⟩
        ⟨"", "8:00 AM", 5⟩).state.lastUpdateTime =
      (if ("" : String) = "" && ("8:00 AM" : String) ≠ "" then "8:00 AM"
       else "") ++ " (stale)" :=
  ⟨(sync_always_renders_stale_on_wifi_failure
      ⟨false, none, false, false, false⟩ ⟨"", "8:00 AM", 5⟩).1,
   (sync_always_renders_stale_on_wifi_failure
      ⟨false, none, false, false, false⟩ ⟨"", "8:00 AM", 5⟩).2 rfl⟩

/-- Claim C5: at sync time — connectivity up, refresh secret configured,
a non-negative clock, and the code's own credential-state invariant that
an empty cached token carries expiry 0 — the pipeline reuses the cached
bearer credential iff `now < tokenExpiresAt - 300`; when it does not
reuse, it performs exactly one credential-exchange attempt; every
exchange event in the sync trace precedes any data-fetch event; and a
failed exchange aborts the data-fetch phase of the attempt. -/
theorem sync_credential_policy (env : Strava.TokenEnv) (st : Strava.TokenState)
    (fetchValid : Bool) (hcred : env.hasCredentials = true)
    (hnow : 0 ≤ env.now)
    (hinv : st.cachedAccessToken = "" → st.tokenExpiresAt = 0) :
    ((Strava.refreshAccessToken env st).2.2 = .reusedCache ↔
      env.now < st.tokenExpiresAt - 300) ∧
    ((Strava.refreshAccessToken env st).2.2 ≠ .reusedCache →
      Strava.exchangeAttempts (Strava.refreshAccessToken env st).2.2 = 1) ∧
    ((Strava.fetchStravaDataWithValidation true env st fetchValid).1.filter
        Strava.isExchangeEvent).length =
      Strava.exchangeAttempts (Strava.refreshAccessToken env st).2.2 ∧
    ((Strava.fetchStravaDataWithValidation true env st fetchValid).1.takeWhile
        (fun e => ! Strava.isFetchEvent e)).filter Strava.isExchangeEvent =
      (Strava.fetchStravaDataWithValidation true env st fetchValid).1.filter
        Strava.isExchangeEvent ∧
    ((Strava.refreshAccessToken env st).2.2 = .exchanged false →
      (Strava.fetchStravaDataWithValidation true env st fetchValid).1.all
        (fun e => ! Strava.isFetchEvent e) = true) := by
  by_cases hc : st.cachedAccessToken ≠ "" ∧ st.tokenExpiresAt > 0 ∧
      env.now < st.tokenExpiresAt - 300
  · have hr : Strava.refreshAccessToken env st =
        ({ st with accessToken := st.cachedAccessToken }, true, .reusedCache) := by
      simp [Strava.refreshAccessToken, hcred, hc]
    refine ⟨?_, ?_, ?_, ?_, ?_⟩ <;>
      simp [hr, Strava.fetchStravaDataWithValidation, Strava.credEvents,
        Strava.exchangeAttempts, Strava.isExchangeEvent, Strava.isFetchEvent,
        hc.2.2]
  · have hnot : ¬env.now < st.tokenExpiresAt - 300 := by
      intro hlt
      apply hc
      refine ⟨?_, by omega, hlt⟩
      intro he
      have := hinv he
      omega
    rcases he : env.exchangeResult with _ | ⟨tok, expIn⟩
    · have hr : Strava.refreshAccessToken env st =
          (st, false, .exchanged false) := by
        simp [Strava.refreshAccessToken, hcred, hc, he]
      refine ⟨?_, ?_, ?_, ?_, ?_⟩ <;>
        simp [hr, Strava.fetchStravaDataWithValidation, Strava.credEvents,
          Strava.exchangeAttempts, Strava.isExchangeEvent,
          Strava.isFetchEvent, hnot]
    · have hr : Strava.refreshAccessToken env st =
          ({ cachedAccessToken := tok.take 255,
             tokenExpiresAt := env.now + expIn,
             accessToken := tok }, true, .exchanged true) := by
        simp [Strava.refreshAccessToken, hcred, hc, he]
      refine ⟨?_, ?_, ?_, ?_, ?_⟩ <;>
        simp [hr, Strava.fetchStravaDataWithValidation, Strava.credEvents,
          Strava.exchangeAttempts, Strava.isExchangeEvent,
          Strava.isFetchEvent, hnot]

/-- Claim C5 witness: a valid cached token (expiry 2000, clock 1000) is
reused, and the reused path makes zero exchange attempts in the trace. -/
theorem sync_credential_policy_witness :
    ((Strava.refreshAccessToken ⟨true, 1000, some ("newtok", 21600)⟩
        ⟨"tok", 2000, ""⟩).2.2 = .reusedCache ↔
      (1000 : Int) < 2000 - 300) ∧
    ((Strava.fetchStravaDataWithValidation true
        ⟨true, 1000, some ("newtok", 21600)⟩
        ⟨"tok", 2000, ""⟩ true).1.filter Strava.isExchangeEvent).length =
      Strava.exchangeAttempts (Strava.refreshAccessToken
        ⟨true, 1000, some ("newtok", 21600)⟩ ⟨"tok", 2000, ""⟩).2.2 :=
  ⟨(sync_credential_policy ⟨true, 1000, some ("newtok", 21600)⟩
      ⟨"tok", 2000, ""⟩ true rfl (by decide) (by decide)).1,
   (sync_credential_policy ⟨true, 1000, some ("newtok", 21600)⟩
      ⟨"tok", 2000, ""⟩ true rfl (by decide) (by decide)).2.2.1⟩

/-- The pagination loop requests consecutive page numbers starting at
its current page. -/
theorem fetchGo_requests_consecutive (pages : Nat → Strava.PageResponse)
    (fuel : Nat) : ∀ page total,
    (Strava.fetchGo pages fuel page total).requests.map Prod.fst =
      List.range' page (Strava.fetchGo pages fuel page total).requests.length := by
  induction fuel with
  | zero => intro page total; simp [Strava.fetchGo]
  | succ f ih =>
    intro page total
    unfold Strava.fetchGo
    rcases pages page with _ | _ | acts
    · simp
    · simp
    · rcases acts with _ | ⟨a, rest⟩
      · simp
      · by_cases hf : f = 0
        · simp [hf]
        · simp only [if_neg hf, List.map_cons, List.length_cons]
          rw [ih, List.range'_succ page _ 1]

/-- The pagination loop never requests more pages than its fuel
allows. -/
theorem fetchGo_requests_le (pages : Nat → Strava.PageResponse)
    (fuel : Nat) : ∀ page total,
    (Strava.fetchGo pages fuel page total).requests.length ≤ fuel := by
  induction fuel with
  | zero => intro page total; simp [Strava.fetchGo]
  | succ f ih =>
    intro page total
    unfold Strava.fetchGo
    rcases pages page with _ | _ | acts
    · simp
    · simp
    · rcases acts with _ | ⟨a, rest⟩
      · simp
      · by_cases hf : f = 0
        · simp [hf]
        · simp only [hf, if_neg hf, List.length_cons]
          exact Nat.succ_le_succ (ih _ _)

/-- With fuel left, the pagination loop issues at least one request. -/
theorem fetchGo_requests_pos (pages : Nat → Strava.PageResponse)
    (fuel page total : Nat) (hf : 1 ≤ fuel) :
    0 < (Strava.fetchGo pages fuel page total).requests.length := by
  match fuel, hf with
  | f + 1, _ =>
    unfold Strava.fetchGo
    rcases pages page with _ | _ | acts
    · simp
    · simp
    · rcases acts with _ | ⟨a, rest⟩
      · simp
      · by_cases hf0 : f = 0
        · simp [hf0]
        · simp [hf0]

/-- Every request of the pagination loop carries `per_page = 30`. -/
theorem fetchGo_perPage (pages : Nat → Strava.PageResponse)
    (fuel : Nat) : ∀ page total,
    (Strava.fetchGo pages fuel page total).requests.all
      (fun r => r.2 == 30) = true := by
  induction fuel with
  | zero => intro page total; simp [Strava.fetchGo]
  | succ f ih =>
    intro page total
    unfold Strava.fetchGo
    rcases pages page with _ | _ | acts
    · simp
    · simp
    · rcases acts with _ | ⟨a, rest⟩
      · simp
      · by_cases hf : f = 0
        · simp [hf]
        · simp only [hf, if_neg hf, List.all_cons, beq_self_eq_true,
            Bool.true_and]
          exact ih _ _

/-- The pagination loop inserts exactly one 200 ms delay between each
pair of successive requests: the delays are `length - 1` many, each of
200 ms. -/
theorem fetchGo_delays (pages : Nat → Strava.PageResponse)
    (fuel : Nat) : ∀ page total, 1 ≤ fuel →
    (Strava.fetchGo pages fuel page total).delaysMs =
      List.replicate
        ((Strava.fetchGo pages fuel page total).requests.length - 1) 200 := by
  induction fuel with
  | zero => intro page total h; omega
  | succ f ih =>
    intro page total _
    unfold Strava.fetchGo
    rcases pages page with _ | _ | acts
    · simp
    · simp
    · rcases acts with _ | ⟨a, rest⟩
      · simp
      · by_cases hf : f = 0
        · simp [hf]
        · simp only [if_neg hf, List.length_cons]
          rw [ih _ _ (by omega)]
          generalize hR : (Strava.fetchGo pages f (page + 1)
            (total + (rest.length + 1))).requests.length = L
          have hpos : 0 < L := by
            rw [← hR]
            exact fetchGo_requests_pos pages f _ _ (by omega)
          have e : L + 1 - 1 = (L - 1) + 1 := by omega
          rw [e, List.replicate_succ]

/-- Claim C7: the paginated fetch requests pages of 30 records starting
at page 1 in consecutive order, never issues more than 10 requests,
separates successive requests by a 200 ms delay, and on the concrete
30/30/5/empty scenario issues exactly 4 requests, aggregates 65 records
before filtering, and stops on the empty page. -/
theorem fetch_pagination_spec (pages : Nat → Strava.PageResponse) :
    Strava.fetchStravaData Strava.scenarioPages =
      { requests := [(1, 30), (2, 30), (3, 30), (4, 30)],
        totalActivities := 65, delaysMs := [200, 200, 200],
        stop := .emptyPage } ∧
    (Strava.fetchStravaData pages).requests.map Prod.fst =
      List.range' 1 (Strava.fetchStravaData pages).requests.length ∧
    (Strava.fetchStravaData pages).requests.length ≤ 10 ∧
    (Strava.fetchStravaData pages).requests.all (fun r => r.2 == 30) = true ∧
    (Strava.fetchStravaData pages).delaysMs =
      List.replicate ((Strava.fetchStravaData pages).requests.length - 1) 200 := by
  refine ⟨by decide, fetchGo_requests_consecutive pages 10 1 0,
    fetchGo_requests_le pages 10 1 0, fetchGo_perPage pages 10 1 0,
    fetchGo_delays pages 10 1 0 (by omega)⟩
